import Mathlib

/-!
Shallow embedding of `src/geoip/geoip_ph.py` (mozilla/geoip_server).

Python strings are modelled as `List Char`.  The module's operations on the
request line (`strip`, `split(' ')`, indexing, `upper`, `replace('/', '')`)
are translated char-by-char from CPython's semantics.  `json.dumps` with its
default arguments (`ensure_ascii=True`, separators `", "` / `": "`) is
modelled by `pyReturn` / `jsonEsc` below.  Dictionaries are modelled as
association lists in insertion order; `dict.update` replaces an existing key
in place or appends a new one.  Attribute values returned by the GeoIP
backend are modelled as strings (the claims under verification never depend
on non-string attribute values).

The external collaborators (`base.GeoIP`, `statsd`) are abstract: the backend
is a structure whose `city` / `country_code` fields return `Except`, where
`Except.error msg` models a raised exception with message `msg` and
`Except.ok none` models a Python `None` result.  The metrics sink is modelled
by a `MetricsLog` recording how many observable statsd operations
(timer start, timer stop, counter increments) a `process` call performs; when
no sink is configured (`statsd is None`), the counters in the Python code are
plain local integers and no observable metric operation happens, so the log
stays zero.
-/

namespace Geoip

/-- Characters of a Lean string literal, used to write Python string values. -/
def toL (s : String) : List Char := s.toList

/-- Python `str` whitespace for `str.strip()`: space, tab, LF, CR, VT, FF. -/
def isPySpace (c : Char) : Bool :=
  c = ' ' || c = '\t' || c = '\n' || c = '\r' || c = Char.ofNat 11 || c = Char.ofNat 12

/-- Python `s.strip()`: drop leading and trailing whitespace. -/
def pyStrip (s : List Char) : List Char :=
  ((s.dropWhile isPySpace).reverse.dropWhile isPySpace).reverse

/-- Python `s.split(sep)` for a one-character separator: split on every
occurrence, keeping empty fields; the result is always nonempty. -/
def splitCh (sep : Char) : List Char → List (List Char)
  | [] => [[]]
  | c :: cs =>
    if c = sep then [] :: splitCh sep cs
    else
      match splitCh sep cs with
      | [] => [[c]]
      | t :: ts => (c :: t) :: ts

/-- Python `items[0]` of `line.split(' ')` (the split list is never empty). -/
def cmdOf (line : List Char) : List Char := (splitCh ' ' line).headD []

/-- Python `cmd.upper()` (ASCII uppercasing). -/
def pyUpper (s : List Char) : List Char := s.map Char.toUpper

/-- The address extraction of `geoip_ph.py` line 90:
`addr = items[1].strip().replace('/', '')`.  `none` models the case where
`items[1]` does not exist; under the guard `' ' in line` it never occurs
(see `extractAddr_isSome`).  The value is the second space-delimited field
of the line, stripped of surrounding whitespace, with every `/` removed. -/
def extractAddr (line : List Char) : Option (List Char) :=
  ((splitCh ' ' line).get? 1).map (fun s => (pyStrip s).filter (fun c => c ≠ '/'))

/- JSON serialization, modelling CPython `json.dumps` defaults. -/

/-- Lower-case hexadecimal digit. -/
def hexDig (n : Nat) : Char :=
  if n < 10 then Char.ofNat (48 + n) else Char.ofNat (87 + n)

/-- A `\uXXXX` escape for code unit `n`. -/
def uEsc (n : Nat) : List Char :=
  ['\\', 'u', hexDig (n / 4096 % 16), hexDig (n / 256 % 16), hexDig (n / 16 % 16), hexDig (n % 16)]

/-- Escape of one character in a JSON string, as `json.dumps` with
`ensure_ascii=True` produces it (short escapes, `\uXXXX` for other control
or non-ASCII characters, surrogate pairs beyond the BMP). -/
def jsonEscChar (c : Char) : List Char :=
  if c = '"' then ['\\', '"']
  else if c = '\\' then ['\\', '\\']
  else if c = Char.ofNat 8 then ['\\', 'b']
  else if c = Char.ofNat 12 then ['\\', 'f']
  else if c = '\n' then ['\\', 'n']
  else if c = '\r' then ['\\', 'r']
  else if c = '\t' then ['\\', 't']
  else if c.toNat < 32 then uEsc c.toNat
  else if c.toNat < 127 then [c]
  else if c.toNat ≤ 65535 then uEsc c.toNat
  else uEsc (55296 + (c.toNat - 65536) / 1024) ++ uEsc (56320 + (c.toNat - 65536) % 1024)

/-- Escape of a whole JSON string body. -/
def jsonEsc : List Char → List Char
  | [] => []
  | c :: cs => jsonEscChar c ++ jsonEsc cs

/-- A serialized JSON string, quotes included. -/
def jsonStr (s : List Char) : List Char := '"' :: (jsonEsc s ++ ['"'])

/-- Opening brace character of a JSON object. -/
def lbr : Char := Char.ofNat 123

/-- Closing brace character of a JSON object. -/
def rbr : Char := Char.ofNat 125

/-- A JSON value as this module produces them: a string (error messages) or a
flat object with string values (the GeoIP attribute mapping). -/
inductive JVal where
  | str : List Char → JVal
  | obj : List (List Char × List Char) → JVal

/-- Members of a JSON object, joined by the default separator of
`json.dumps`. -/
def dumpPairs : List (List Char × List Char) → List Char
  | [] => []
  | [kv] => jsonStr kv.1 ++ toL ": " ++ jsonStr kv.2
  | kv :: rest => jsonStr kv.1 ++ toL ": " ++ jsonStr kv.2 ++ toL ", " ++ dumpPairs rest

/-- Serialization of a `JVal`. -/
def dumpJVal : JVal → List Char
  | JVal.str s => jsonStr s
  | JVal.obj kvs => lbr :: (dumpPairs kvs ++ [rbr])

/-- `GeoServer._return(label, obj)`, lines 56-60:
`json.dumps({label: obj})` followed by the `"%s\n"` line terminator. -/
def pyReturn (label : List Char) (v : JVal) : List Char :=
  (lbr :: (jsonStr label ++ toL ": " ++ dumpJVal v ++ [rbr])) ++ ['\n']

/-- `GeoServer._error(errstr)`, lines 51-54: an error reply line. -/
def pyError (e : List Char) : List Char := pyReturn (toL "error") (JVal.str e)

/-- Python `reply.update({'addr': addr})`: replace the value of an existing
key in place, or append the new pair. -/
def dictUpdate (kvs : List (List Char × List Char)) (k v : List Char) :
    List (List Char × List Char) :=
  if kvs.any (fun kv => kv.1 = k) then
    kvs.map (fun kv => if kv.1 = k then (k, v) else kv)
  else kvs ++ [(k, v)]

/-- Error message of line 87. -/
def invReqMsg : List Char := toL "Invalid request. Try \"GET addr\""

/-- Error message of line 92. -/
def invCmdMsg : List Char := toL "Invalid command. Try \"GET addr\""

/-- Error message of line 94. -/
def missingMsg : List Char := toL "Missing address"

/-- Error message of line 100. -/
def noInfoMsg : List Char := toL "No information for site"

/-- Error message of line 106: `'Unknown Exception "%s"' % str(e)`. -/
def unknownExcMsg (e : List Char) : List Char :=
  toL "Unknown Exception \"" ++ e ++ toL "\""

/- The backend, the metrics model and the request job. -/

/-- The lookup backend handle (`base.GeoIP`): `city` returns an attribute
mapping or `None`, `country_code` returns a code string or `None`; either may
raise, modelled by `Except.error` carrying the exception message. -/
structure Backend where
  city : List Char → Except (List Char) (Option (List (List Char × List Char)))
  country_code : List Char → Except (List Char) (Option (List Char))

/-- Observable statsd operations performed by one `process` call. -/
structure MetricsLog where
  timerStarts : Nat
  timerStops : Nat
  requests : Nat
  successes : Nat
  failures : Nat

/-- The all-zero log. -/
def MetricsLog.zero : MetricsLog := ⟨0, 0, 0, 0, 0⟩

/-- Log state after the preamble of `process` (lines 72-82): when statsd is
configured the timer is started once, otherwise nothing observable happens. -/
def startLog (cfg : Bool) : MetricsLog :=
  if cfg then ⟨1, 0, 0, 0, 0⟩ else MetricsLog.zero

/-- The `finally` clause (lines 107-109): `if timer: timer.stop('Request')`;
the timer object exists exactly when statsd is configured. -/
def stopLog (cfg : Bool) (m : MetricsLog) : MetricsLog :=
  if cfg then { m with timerStops := m.timerStops + 1 } else m

/-- `req_counter += 1` (line 96): observable only when statsd is configured;
otherwise it increments a plain local integer. -/
def bumpReq (cfg : Bool) (m : MetricsLog) : MetricsLog :=
  if cfg then { m with requests := m.requests + 1 } else m

/-- `success_counter += 1` (line 101). -/
def bumpSucc (cfg : Bool) (m : MetricsLog) : MetricsLog :=
  if cfg then { m with successes := m.successes + 1 } else m

/-- `fail_counter += 1` (lines 99 and 105). -/
def bumpFail (cfg : Bool) (m : MetricsLog) : MetricsLog :=
  if cfg then { m with failures := m.failures + 1 } else m

/-- The job object handed to `process`; `job.data` is the request line. -/
structure Job where
  data : List Char

/-- `GeoServer.checkConnection` (lines 62-68).  `none` models the implicit
Python `None` returned when `country_code('mozilla.org')` neither equals
`'US'` nor raises: the `if` falls through and the function has no `return`. -/
def checkConnection (b : Backend) : Option (List Char) :=
  match b.country_code (toL "mozilla.org") with
  | Except.ok cc => if cc = some (toL "US") then some (toL "200 OK\n") else none
  | Except.error _ => some (toL "500 Error\n")

/-- Body of the `try` of `GeoServer.process` (lines 83-106): the reply (or
`none` for a Python `None` fall-through) and the metrics log before the
`finally` clause runs. -/
def processBody (cfg : Bool) (b : Backend) (line : List Char) :
    Option (List Char) × MetricsLog :=
  if pyStrip line = toL "monitor" then
    (checkConnection b, startLog cfg)
  else if ' ' ∉ line then
    (some (pyError invReqMsg), startLog cfg)
  else if pyUpper (cmdOf line) ≠ toL "GET" then
    (some (pyError invCmdMsg), startLog cfg)
  else
    match extractAddr line with
    | none => (some (pyError missingMsg), startLog cfg)
    | some addr =>
      match b.city addr with
      | Except.error e =>
        (some (pyError (unknownExcMsg e)), bumpFail cfg (bumpReq cfg (startLog cfg)))
      | Except.ok none =>
        (some (pyError noInfoMsg), bumpFail cfg (bumpReq cfg (startLog cfg)))
      | Except.ok (some reply) =>
        (some (pyReturn (toL "success") (JVal.obj (dictUpdate reply (toL "addr") addr))),
         bumpSucc cfg (bumpReq cfg (startLog cfg)))

/-- `GeoServer.process(job)` (lines 70-109): runs the body and then the
`finally` clause.  `cfg` states whether a statsd sink is configured
(`statsd is not None`). -/
def process (cfg : Bool) (b : Backend) (job : Job) : Option (List Char) × MetricsLog :=
  ((processBody cfg b job.data).1, stopLog cfg (processBody cfg b job.data).2)

/-- Modelled from the spec (section 4, step 4), for comparison with
`extractAddr`: "Split the line on the first space into `command` and the
remainder; take the first whitespace-delimited token of the remainder as the
address, and strip any `/` characters from it". -/
def specExtractAddr (line : List Char) : Option (List Char) :=
  if ' ' ∈ line then
    let rem := (line.dropWhile (fun c => c ≠ ' ')).tail
    some ((((rem.dropWhile isPySpace).takeWhile (fun c => !(isPySpace c))).filter
      (fun c => c ≠ '/')))
  else none

/- Concrete backends used by witnesses and counterexamples. -/

/-- Attribute mapping of the worked example in the spec (section 8). -/
def attrsMV : List (List Char × List Char) :=
  [(toL "city", toL "Mountain View"), (toL "country", toL "US")]

/-- A healthy backend: knows `8.8.8.8`, and `country_code` answers `US`. -/
def bUS : Backend :=
  { city := fun a => if a = toL "8.8.8.8" then Except.ok (some attrsMV) else Except.ok none,
    country_code := fun _ => Except.ok (some (toL "US")) }

/-- A backend whose `country_code` answers `CA` (not `US`) and whose `city`
finds nothing. -/
def bCA : Backend :=
  { city := fun _ => Except.ok none,
    country_code := fun _ => Except.ok (some (toL "CA")) }

/-- A backend that raises `boom` on every lookup. -/
def bRaise : Backend :=
  { city := fun _ => Except.error (toL "boom"),
    country_code := fun _ => Except.error (toL "boom") }

/-- A backend that knows `8.8.8.8` and nothing else; used to observe which
address a `process` call hands to the backend. -/
def bSplitWit : Backend :=
  { city := fun a =>
      if a = toL "8.8.8.8" then Except.ok (some [(toL "country", toL "US")])
      else Except.ok none,
    country_code := fun _ => Except.ok (some (toL "US")) }

/- Structural lemmas about the embedding. -/

theorem splitCh_ne_nil (sep : Char) (l : List Char) : splitCh sep l ≠ [] := by
  induction l with
  | nil => simp [splitCh]
  | cons c cs ih =>
    by_cases h : c = sep
    · simp [splitCh, h]
    · simp only [splitCh, if_neg h]
      cases hs : splitCh sep cs with
      | nil => simp
      | cons t ts => simp

theorem two_le_length_splitCh (sep : Char) (l : List Char) (h : sep ∈ l) :
    2 ≤ (splitCh sep l).length := by
  induction l with
  | nil => cases h
  | cons c cs ih =>
    by_cases hc : c = sep
    · have h1 : splitCh sep cs ≠ [] := splitCh_ne_nil sep cs
      have h2 : 1 ≤ (splitCh sep cs).length := by
        cases hs : splitCh sep cs with
        | nil => exact absurd hs h1
        | cons t ts => simp
      simp only [splitCh, if_pos hc, List.length_cons]
      omega
    · have hmem : sep ∈ cs := by
        cases h with
        | head => exact absurd rfl hc
        | tail _ h2 => exact h2
      have hlen := ih hmem
      simp only [splitCh, if_neg hc]
      cases hs : splitCh sep cs with
      | nil => exact absurd hs (splitCh_ne_nil sep cs)
      | cons t ts =>
        rw [hs] at hlen
        simpa using hlen

theorem extractAddr_isSome (line : List Char) (h : ' ' ∈ line) :
    ∃ a, extractAddr line = some a := by
  have h2 := two_le_length_splitCh ' ' line h
  unfold extractAddr
  cases hs : splitCh ' ' line with
  | nil => exact absurd hs (splitCh_ne_nil ' ' line)
  | cons x t =>
    cases t with
    | nil =>
      rw [hs] at h2
      simp at h2
    | cons y t2 => exact ⟨(pyStrip y).filter (fun c => c ≠ '/'), rfl⟩

theorem jsonEsc_append (s t : List Char) : jsonEsc (s ++ t) = jsonEsc s ++ jsonEsc t := by
  induction s with
  | nil => simp [jsonEsc]
  | cons c cs ih => simp [jsonEsc, ih, List.append_assoc]

/-- Every error reply is the fixed JSON framing around the escaped message. -/
theorem pyError_decomp (m : List Char) :
    pyError m = toL "\x7b\"error\": \"" ++ (jsonEsc m ++ toL "\"\x7d\n") := by
  simp only [pyError, pyReturn, dumpJVal, jsonStr, List.append_assoc, List.cons_append,
    List.nil_append]
  rfl

/-- General framing of a reply line around its label and payload. -/
theorem pyReturn_decomp (label : List Char) (v : JVal) :
    pyReturn label v =
      lbr :: '"' :: (jsonEsc label ++ ('"' :: ':' :: ' ' :: (dumpJVal v ++ [rbr, '\n']))) := by
  simp only [pyReturn, jsonStr, List.append_assoc, List.cons_append, List.nil_append]
  rfl

theorem pyError_inj (m1 m2 : List Char) (h : pyError m1 = pyError m2) :
    jsonEsc m1 = jsonEsc m2 := by
  rw [pyError_decomp, pyError_decomp] at h
  exact List.append_cancel_right (List.append_cancel_left h)

theorem jsonEsc_unknownExcMsg (e : List Char) :
    jsonEsc (unknownExcMsg e) =
      toL "Unknown Exception \\\"" ++ (jsonEsc e ++ toL "\\\"") := by
  simp only [unknownExcMsg, jsonEsc_append, List.append_assoc]
  rfl

theorem unknownExc_head (e : List Char) :
    ∃ rest, jsonEsc (unknownExcMsg e) = 'U' :: rest := by
  rw [jsonEsc_unknownExcMsg]
  exact ⟨toL "nknown Exception \\\"" ++ (jsonEsc e ++ toL "\\\""), rfl⟩

/-- An error reply whose escaped message does not start with `U` differs from
every `Unknown Exception` reply. -/
theorem pyError_ne_unknownExc (m : List Char) (c : Char) (rest : List Char)
    (hm : jsonEsc m = c :: rest) (hc : c ≠ 'U') (e : List Char) :
    pyError m ≠ pyError (unknownExcMsg e) := by
  intro h
  have h2 := pyError_inj _ _ h
  obtain ⟨r2, hr2⟩ := unknownExc_head e
  rw [hm, hr2] at h2
  injection h2 with h3 _
  exact hc h3

theorem pyReturn_success_ne_pyError (v : JVal) (m : List Char) :
    pyReturn (toL "success") v ≠ pyError m := by
  intro h
  rw [pyError, pyReturn_decomp, pyReturn_decomp] at h
  injection h with h1 h2
  injection h2 with h3 h4
  have hs : jsonEsc (toL "success") = 's' :: toL "uccess" := rfl
  have he : jsonEsc (toL "error") = 'e' :: toL "rror" := rfl
  rw [hs, he, List.cons_append, List.cons_append] at h4
  injection h4 with h5 _
  exact absurd h5 (by decide)

theorem ok200_ne_pyError (m : List Char) : toL "200 OK\n" ≠ pyError m := by
  intro h
  rw [pyError_decomp] at h
  have h1 : toL "200 OK\n" = '2' :: toL "00 OK\n" := rfl
  have h2 : toL "\x7b\"error\": \"" ++ (jsonEsc m ++ toL "\"\x7d\n") =
      lbr :: (toL "\"error\": \"" ++ (jsonEsc m ++ toL "\"\x7d\n")) := rfl
  rw [h1, h2] at h
  injection h with h3 _
  exact absurd h3 (by decide)

theorem err500_ne_pyError (m : List Char) : toL "500 Error\n" ≠ pyError m := by
  intro h
  rw [pyError_decomp] at h
  have h1 : toL "500 Error\n" = '5' :: toL "00 Error\n" := rfl
  have h2 : toL "\x7b\"error\": \"" ++ (jsonEsc m ++ toL "\"\x7d\n") =
      lbr :: (toL "\"error\": \"" ++ (jsonEsc m ++ toL "\"\x7d\n")) := rfl
  rw [h1, h2] at h
  injection h with h3 _
  exact absurd h3 (by decide)

/-- The error reply built via `pyError` for an `Unknown Exception` message,
written with the escaped message spliced into the literal framing the claims
quote. -/
theorem pyError_unknownExc_decomp (e : List Char) :
    pyError (unknownExcMsg e) =
      toL "\x7b\"error\": \"Unknown Exception \\\"" ++ (jsonEsc e ++ toL "\\\"\"\x7d\n") := by
  rw [pyError_decomp, jsonEsc_unknownExcMsg]
  simp only [List.append_assoc]
  rfl

/- Unfolding lemmas for the branches of `process`. -/

theorem process_fst (cfg : Bool) (b : Backend) (job : Job) :
    (process cfg b job).1 = (processBody cfg b job.data).1 := rfl

theorem process_snd (cfg : Bool) (b : Backend) (job : Job) :
    (process cfg b job).2 = stopLog cfg (processBody cfg b job.data).2 := rfl

theorem processBody_monitor (cfg : Bool) (b : Backend) (line : List Char)
    (h : pyStrip line = toL "monitor") :
    processBody cfg b line = (checkConnection b, startLog cfg) := by
  unfold processBody
  rw [if_pos h]

theorem processBody_nospace (cfg : Bool) (b : Backend) (line : List Char)
    (h1 : pyStrip line ≠ toL "monitor") (h2 : ' ' ∉ line) :
    processBody cfg b line = (some (pyError invReqMsg), startLog cfg) := by
  unfold processBody
  rw [if_neg h1, if_pos h2]

theorem processBody_badcmd (cfg : Bool) (b : Backend) (line : List Char)
    (h1 : pyStrip line ≠ toL "monitor") (h2 : ' ' ∈ line)
    (h3 : pyUpper (cmdOf line) ≠ toL "GET") :
    processBody cfg b line = (some (pyError invCmdMsg), startLog cfg) := by
  unfold processBody
  rw [if_neg h1, if_neg (not_not_intro h2), if_pos h3]

theorem processBody_reach (cfg : Bool) (b : Backend) (line a : List Char)
    (h1 : pyStrip line ≠ toL "monitor") (h2 : ' ' ∈ line)
    (h3 : pyUpper (cmdOf line) = toL "GET") (h4 : extractAddr line = some a) :
    processBody cfg b line =
      match b.city a with
      | Except.error e =>
        (some (pyError (unknownExcMsg e)), bumpFail cfg (bumpReq cfg (startLog cfg)))
      | Except.ok none =>
        (some (pyError noInfoMsg), bumpFail cfg (bumpReq cfg (startLog cfg)))
      | Except.ok (some reply) =>
        (some (pyReturn (toL "success") (JVal.obj (dictUpdate reply (toL "addr") a))),
         bumpSucc cfg (bumpReq cfg (startLog cfg))) := by
  unfold processBody
  rw [if_neg h1, if_neg (not_not_intro h2), if_neg (not_not_intro h3), h4]

/- Claim theorems. -/

/-- C1: for a `GET <addr>` line whose backend city lookup raises with message
`e`, `process` catches the exception and returns the reply line
`{"error": "Unknown Exception \"<message>\""}` (the fixed JSON framing with
the escaped message spliced in), so the call returns a reply line instead of
propagating the exception. -/
theorem C1_backend_exception_isolated (cfg : Bool) (b : Backend) (line a e : List Char)
    (h1 : pyStrip line ≠ toL "monitor") (h2 : ' ' ∈ line)
    (h3 : pyUpper (cmdOf line) = toL "GET") (h4 : extractAddr line = some a)
    (h5 : b.city a = Except.error e) :
    (process cfg b (Job.mk line)).1 =
      some (toL "\x7b\"error\": \"Unknown Exception \\\"" ++ (jsonEsc e ++ toL "\\\"\"\x7d\n")) := by
  rw [process_fst, processBody_reach cfg b line a h1 h2 h3 h4, h5,
    ← pyError_unknownExc_decomp]

/-- Witness for C1: the line `GET 8.8.8.8` against a backend that raises
`boom` yields the `Unknown Exception "boom"` error reply. -/
theorem C1_witness :
    (process true bRaise (Job.mk (toL "GET 8.8.8.8"))).1 =
      some (toL "\x7b\"error\": \"Unknown Exception \\\"" ++
        (jsonEsc (toL "boom") ++ toL "\\\"\"\x7d\n")) :=
  C1_backend_exception_isolated true bRaise (toL "GET 8.8.8.8") (toL "8.8.8.8") (toL "boom")
    (by decide) (by decide) (by decide) (by decide) rfl

/-- C2: for a `GET <addr>` line whose backend city lookup returns the
attribute mapping `attrs`, the reply is the newline-terminated JSON object
with the single top-level key `success`, whose value is `attrs` with the
sanitized address stored under key `addr`. -/
theorem C2_success_reply (cfg : Bool) (b : Backend) (line a : List Char)
    (attrs : List (List Char × List Char))
    (h1 : pyStrip line ≠ toL "monitor") (h2 : ' ' ∈ line)
    (h3 : pyUpper (cmdOf line) = toL "GET") (h4 : extractAddr line = some a)
    (h5 : b.city a = Except.ok (some attrs)) :
    (process cfg b (Job.mk line)).1 =
      some (pyReturn (toL "success") (JVal.obj (dictUpdate attrs (toL "addr") a))) := by
  rw [process_fst, processBody_reach cfg b line a h1 h2 h3 h4, h5]

/-- Witness for C2: the worked example of the spec, `GET 8.8.8.8` against a
backend returning the Mountain View attributes, evaluated down to the exact
reply bytes. -/
theorem C2_witness :
    (process true bUS (Job.mk (toL "GET 8.8.8.8\n"))).1 =
      some (pyReturn (toL "success")
        (JVal.obj (dictUpdate attrsMV (toL "addr") (toL "8.8.8.8")))) ∧
    pyReturn (toL "success") (JVal.obj (dictUpdate attrsMV (toL "addr") (toL "8.8.8.8"))) =
      toL "\x7b\"success\": \x7b\"city\": \"Mountain View\", \"country\": \"US\", \"addr\": \"8.8.8.8\"\x7d\x7d\n" :=
  ⟨C2_success_reply true bUS (toL "GET 8.8.8.8\n") (toL "8.8.8.8") attrsMV
      (by decide) (by decide) (by decide) (by decide) rfl,
   by decide⟩

/-- C3: the code at the failing input.  When `country_code('mozilla.org')`
returns a non-`US` value without raising, `checkConnection` falls off the end
of its `if` and `process` returns Python `None` (modelled `none`) instead of
one of the two literal health-check lines; the two documented cases (`US`
answer, raising lookup) do return `"200 OK\n"` and `"500 Error\n"`. -/
theorem C3_monitor_fallthrough :
    (process true bCA (Job.mk (toL "monitor\n"))).1 = none ∧
    (process true bUS (Job.mk (toL "monitor\n"))).1 = some (toL "200 OK\n") ∧
    (process true bRaise (Job.mk (toL "monitor\n"))).1 = some (toL "500 Error\n") := by
  exact ⟨rfl, rfl, rfl⟩

/-- C4 counterexample: on the `monitor` path with a metrics sink configured,
the request timer IS started and stopped once (the code starts it before the
monitor check, and the `finally` clause stops it), contradicting the claim
that no timer is touched on that path. -/
theorem C4_counterexample :
    ((process true bUS (Job.mk (toL "monitor"))).2).timerStarts = 1 ∧
    ((process true bUS (Job.mk (toL "monitor"))).2).timerStops = 1 := by
  exact ⟨rfl, rfl⟩

/-- C4 (amended): a line whose trimmed content is `monitor` is delegated to
the health check, whose result is returned unchanged; no counter (requests,
successes, failures) is incremented, but the request timer is started and
stopped exactly once when a metrics sink is configured (zero times when
not). -/
theorem C4_amended_monitor_frame (cfg : Bool) (b : Backend) (line : List Char)
    (h : pyStrip line = toL "monitor") :
    (process cfg b (Job.mk line)).1 = checkConnection b ∧
    ((process cfg b (Job.mk line)).2).requests = 0 ∧
    ((process cfg b (Job.mk line)).2).successes = 0 ∧
    ((process cfg b (Job.mk line)).2).failures = 0 ∧
    ((process cfg b (Job.mk line)).2).timerStarts = (if cfg then 1 else 0) ∧
    ((process cfg b (Job.mk line)).2).timerStops = (if cfg then 1 else 0) := by
  have hb : processBody cfg b line = (checkConnection b, startLog cfg) :=
    processBody_monitor cfg b line h
  have hfst : (process cfg b (Job.mk line)).1 = checkConnection b := by
    rw [process_fst, hb]
  have hsnd : (process cfg b (Job.mk line)).2 = stopLog cfg (startLog cfg) := by
    rw [process_snd, hb]
  refine ⟨hfst, ?_, ?_, ?_, ?_, ?_⟩ <;> rw [hsnd] <;> cases cfg <;> rfl

/-- Witness for C4 (amended): a padded `monitor` line with a sink configured
is delegated to the health check and only the timer is observed. -/
theorem C4_witness :
    (process true bUS (Job.mk (toL " monitor \n"))).1 = checkConnection bUS ∧
    ((process true bUS (Job.mk (toL " monitor \n"))).2).requests = 0 ∧
    ((process true bUS (Job.mk (toL " monitor \n"))).2).successes = 0 ∧
    ((process true bUS (Job.mk (toL " monitor \n"))).2).failures = 0 ∧
    ((process true bUS (Job.mk (toL " monitor \n"))).2).timerStarts = (if true then 1 else 0) ∧
    ((process true bUS (Job.mk (toL " monitor \n"))).2).timerStops = (if true then 1 else 0) :=
  C4_amended_monitor_frame true bUS (toL " monitor \n") (by decide)

/-- C5: with a metrics sink configured, a non-monitor line that reaches the
backend increments the requests counter exactly once, then exactly one of the
successes/failures counters (their sum is one), and the timer started at
entry is stopped exactly once, on every exit path of the lookup. -/
theorem C5_metrics_balance (b : Backend) (line : List Char)
    (h1 : pyStrip line ≠ toL "monitor") (h2 : ' ' ∈ line)
    (h3 : pyUpper (cmdOf line) = toL "GET") :
    ((process true b (Job.mk line)).2).requests = 1 ∧
    ((process true b (Job.mk line)).2).successes +
      ((process true b (Job.mk line)).2).failures = 1 ∧
    ((process true b (Job.mk line)).2).timerStarts = 1 ∧
    ((process true b (Job.mk line)).2).timerStops = 1 := by
  obtain ⟨a, ha⟩ := extractAddr_isSome line h2
  have hb := processBody_reach true b line a h1 h2 h3 ha
  cases hc : b.city a with
  | error e =>
    have hsnd : (process true b (Job.mk line)).2 =
        stopLog true (bumpFail true (bumpReq true (startLog true))) := by
      rw [process_snd, hb, hc]
    rw [hsnd]
    exact ⟨rfl, rfl, rfl, rfl⟩
  | ok o =>
    cases o with
    | none =>
      have hsnd : (process true b (Job.mk line)).2 =
          stopLog true (bumpFail true (bumpReq true (startLog true))) := by
        rw [process_snd, hb, hc]
      rw [hsnd]
      exact ⟨rfl, rfl, rfl, rfl⟩
    | some attrs =>
      have hsnd : (process true b (Job.mk line)).2 =
          stopLog true (bumpSucc true (bumpReq true (startLog true))) := by
        rw [process_snd, hb, hc]
      rw [hsnd]
      exact ⟨rfl, rfl, rfl, rfl⟩

/-- Witness for C5: the counters and timer of a successful `GET 8.8.8.8`. -/
theorem C5_witness :
    ((process true bUS (Job.mk (toL "GET 8.8.8.8"))).2).requests = 1 ∧
    ((process true bUS (Job.mk (toL "GET 8.8.8.8"))).2).successes +
      ((process true bUS (Job.mk (toL "GET 8.8.8.8"))).2).failures = 1 ∧
    ((process true bUS (Job.mk (toL "GET 8.8.8.8"))).2).timerStarts = 1 ∧
    ((process true bUS (Job.mk (toL "GET 8.8.8.8"))).2).timerStops = 1 :=
  C5_metrics_balance bUS (toL "GET 8.8.8.8") (by decide) (by decide) (by decide)

/-- C6 counterexample: on `GET  8.8.8.8` (two spaces) the code's extraction
(`items[1]` of a split on every space) yields the empty address, while the
spec's described extraction ("first whitespace-delimited token of the
remainder after the first space") yields `8.8.8.8`; consequently the backend
is looked up with the empty string and a backend that knows `8.8.8.8` still
answers `No information for site`. -/
theorem C6_counterexample :
    extractAddr (toL "GET  8.8.8.8") = some [] ∧
    specExtractAddr (toL "GET  8.8.8.8") = some (toL "8.8.8.8") ∧
    (some ([] : List Char) ≠ some (toL "8.8.8.8")) ∧
    (process true bSplitWit (Job.mk (toL "GET  8.8.8.8"))).1 = some (pyError noInfoMsg) := by
  exact ⟨rfl, rfl, by decide, rfl⟩

/-- C6 (amended): the line is split on every space character; the address is
the second space-delimited field (`items[1]`), stripped of surrounding
whitespace, with every `/` removed; this sanitized address is the only value
the backend is consulted with and the value echoed under the `addr` key of a
success reply. -/
theorem C6_amended_extraction (cfg : Bool) (b : Backend) (line a : List Char)
    (h1 : pyStrip line ≠ toL "monitor") (h2 : ' ' ∈ line)
    (h3 : pyUpper (cmdOf line) = toL "GET") (h4 : extractAddr line = some a) :
    (∀ s, (splitCh ' ' line).get? 1 = some s →
      a = (pyStrip s).filter (fun c => c ≠ '/')) ∧
    (∀ b' : Backend, b'.city a = b.city a →
      (process cfg b' (Job.mk line)).1 = (process cfg b (Job.mk line)).1) ∧
    (∀ attrs, b.city a = Except.ok (some attrs) →
      (process cfg b (Job.mk line)).1 =
        some (pyReturn (toL "success") (JVal.obj (dictUpdate attrs (toL "addr") a)))) := by
  refine ⟨?_, ?_, ?_⟩
  · intro s hs
    unfold extractAddr at h4
    rw [hs] at h4
    simp only [Option.map_some', Option.some.injEq] at h4
    exact h4.symm
  · intro b' hcity
    rw [process_fst, process_fst, processBody_reach cfg b line a h1 h2 h3 h4,
      processBody_reach cfg b' line a h1 h2 h3 h4, hcity]
  · intro attrs hc
    rw [process_fst, processBody_reach cfg b line a h1 h2 h3 h4, hc]

/-- Witness for C6 (amended): `GET /8.8./8.8` has its slashes stripped, the
backend is consulted with `8.8.8.8`, and the same string is echoed in the
reply. -/
theorem C6_witness :
    (process true bUS (Job.mk (toL "GET /8.8./8.8\n"))).1 =
      some (pyReturn (toL "success")
        (JVal.obj (dictUpdate attrsMV (toL "addr") (toL "8.8.8.8")))) :=
  (C6_amended_extraction true bUS (toL "GET /8.8./8.8\n") (toL "8.8.8.8")
    (by decide) (by decide) (by decide) (by decide)).2.2 attrsMV rfl

/-- C7: for a non-monitor line, validation failures come back synchronously
as structured error replies: a line without a space yields exactly
`{"error": "Invalid request. Try \"GET addr\""}` and a spaced line whose
uppercased command is not `GET` yields exactly
`{"error": "Invalid command. Try \"GET addr\""}`. -/
theorem C7_validation_errors (cfg : Bool) (b : Backend) (line : List Char)
    (h1 : pyStrip line ≠ toL "monitor") :
    (' ' ∉ line →
      (process cfg b (Job.mk line)).1 =
        some (toL "\x7b\"error\": \"Invalid request. Try \\\"GET addr\\\"\"\x7d\n")) ∧
    (' ' ∈ line → pyUpper (cmdOf line) ≠ toL "GET" →
      (process cfg b (Job.mk line)).1 =
        some (toL "\x7b\"error\": \"Invalid command. Try \\\"GET addr\\\"\"\x7d\n")) := by
  constructor
  · intro h2
    rw [process_fst, processBody_nospace cfg b line h1 h2]
    rfl
  · intro h2 h3
    rw [process_fst, processBody_badcmd cfg b line h1 h2 h3]
    rfl

/-- Witness for C7: `hello` (no space) and `PUT x` (unknown command). -/
theorem C7_witness :
    (process true bUS (Job.mk (toL "hello"))).1 =
      some (toL "\x7b\"error\": \"Invalid request. Try \\\"GET addr\\\"\"\x7d\n") ∧
    (process true bUS (Job.mk (toL "PUT x"))).1 =
      some (toL "\x7b\"error\": \"Invalid command. Try \\\"GET addr\\\"\"\x7d\n") :=
  ⟨(C7_validation_errors true bUS (toL "hello") (by decide)).1 (by decide),
   (C7_validation_errors true bUS (toL "PUT x") (by decide)).2 (by decide) (by decide)⟩

/-- C8: a request that reaches the backend and gets the no-data signal
(Python `None`) is answered with exactly
`{"error": "No information for site"}`, the failures counter is incremented
(shown with a sink configured), and this reply differs from every
backend-exception reply. -/
theorem C8_no_data_reply (cfg : Bool) (b : Backend) (line a : List Char)
    (h1 : pyStrip line ≠ toL "monitor") (h2 : ' ' ∈ line)
    (h3 : pyUpper (cmdOf line) = toL "GET") (h4 : extractAddr line = some a)
    (h5 : b.city a = Except.ok none) :
    (process cfg b (Job.mk line)).1 =
      some (toL "\x7b\"error\": \"No information for site\"\x7d\n") ∧
    ((process true b (Job.mk line)).2).failures = 1 ∧
    (∀ e, toL "\x7b\"error\": \"No information for site\"\x7d\n" ≠
      pyError (unknownExcMsg e)) := by
  refine ⟨?_, ?_, ?_⟩
  · rw [process_fst, processBody_reach cfg b line a h1 h2 h3 h4, h5]
    rfl
  · have hsnd : (process true b (Job.mk line)).2 =
        stopLog true (bumpFail true (bumpReq true (startLog true))) := by
      rw [process_snd, processBody_reach true b line a h1 h2 h3 h4, h5]
    rw [hsnd]
    rfl
  · intro e
    have hlit : toL "\x7b\"error\": \"No information for site\"\x7d\n" = pyError noInfoMsg := by
      decide
    rw [hlit]
    exact pyError_ne_unknownExc noInfoMsg 'N' (toL "o information for site") rfl (by decide) e

/-- Witness for C8: `GET 8.8.8.8` against a backend that finds nothing. -/
theorem C8_witness :
    (process true bCA (Job.mk (toL "GET 8.8.8.8"))).1 =
      some (toL "\x7b\"error\": \"No information for site\"\x7d\n") ∧
    toL "\x7b\"error\": \"No information for site\"\x7d\n" ≠
      pyError (unknownExcMsg (toL "boom")) :=
  ⟨(C8_no_data_reply true bCA (toL "GET 8.8.8.8") (toL "8.8.8.8")
      (by decide) (by decide) (by decide) (by decide) rfl).1,
   (C8_no_data_reply true bCA (toL "GET 8.8.8.8") (toL "8.8.8.8")
      (by decide) (by decide) (by decide) (by decide) rfl).2.2 (toL "boom")⟩

/-- C9: the `Missing address` branch is dead.  Whenever a line contains a
space (the only way to reach the extraction), the extracted address exists
(it is a string, possibly empty); no input whatsoever makes `process` return
the `Missing address` error reply; and `GET ` (trailing space) extracts the
empty string, which is what the backend would be consulted with. -/
theorem C9_missing_address_dead (cfg : Bool) (b : Backend) (line : List Char) :
    (' ' ∈ line → ∃ a, extractAddr line = some a) ∧
    (process cfg b (Job.mk line)).1 ≠ some (pyError missingMsg) ∧
    extractAddr (toL "GET ") = some [] := by
  refine ⟨extractAddr_isSome line, ?_, rfl⟩
  rw [process_fst]
  by_cases h1 : pyStrip line = toL "monitor"
  · rw [processBody_monitor cfg b line h1]
    show checkConnection b ≠ some (pyError missingMsg)
    unfold checkConnection
    cases hcc : b.country_code (toL "mozilla.org") with
    | error e =>
      show some (toL "500 Error\n") ≠ some (pyError missingMsg)
      intro h
      exact err500_ne_pyError missingMsg (Option.some.inj h)
    | ok cc =>
      show (if cc = some (toL "US") then some (toL "200 OK\n") else none) ≠
        some (pyError missingMsg)
      by_cases hus : cc = some (toL "US")
      · rw [if_pos hus]
        intro h
        exact ok200_ne_pyError missingMsg (Option.some.inj h)
      · rw [if_neg hus]
        intro h
        exact Option.noConfusion h
  · by_cases h2 : ' ' ∈ line
    · by_cases h3 : pyUpper (cmdOf line) = toL "GET"
      · obtain ⟨a, ha⟩ := extractAddr_isSome line h2
        rw [processBody_reach cfg b line a h1 h2 h3 ha]
        cases hc : b.city a with
        | error e =>
          show some (pyError (unknownExcMsg e)) ≠ some (pyError missingMsg)
          intro h
          exact (pyError_ne_unknownExc missingMsg 'M' (toL "issing address") rfl
            (by decide) e) (Option.some.inj h).symm
        | ok o =>
          cases o with
          | none =>
            show some (pyError noInfoMsg) ≠ some (pyError missingMsg)
            intro h
            have hne : pyError noInfoMsg ≠ pyError missingMsg := by decide
            exact hne (Option.some.inj h)
          | some attrs =>
            show some (pyReturn (toL "success")
              (JVal.obj (dictUpdate attrs (toL "addr") a))) ≠ some (pyError missingMsg)
            intro h
            exact pyReturn_success_ne_pyError _ missingMsg (Option.some.inj h)
      · rw [processBody_badcmd cfg b line h1 h2 h3]
        intro h
        have hne : pyError invCmdMsg ≠ pyError missingMsg := by decide
        exact hne (Option.some.inj h)
    · rw [processBody_nospace cfg b line h1 h2]
      intro h
      have hne : pyError invReqMsg ≠ pyError missingMsg := by decide
      exact hne (Option.some.inj h)

/-- Witness for C9: at `GET ` the extraction succeeds with the empty string
and the reply is not the `Missing address` error. -/
theorem C9_witness :
    (∃ a, extractAddr (toL "GET ") = some a) ∧
    (process true bUS (Job.mk (toL "GET "))).1 ≠ some (pyError missingMsg) :=
  ⟨(C9_missing_address_dead true bUS (toL "GET ")).1 (by decide),
   (C9_missing_address_dead true bUS (toL "GET ")).2.1⟩

/-- C10: the reply line of `process` for a fixed line and backend is the same
whether or not a metrics sink is configured; instrumentation never changes
the returned value. -/
theorem C10_reply_independent_of_metrics (b : Backend) (job : Job) :
    (process true b job).1 = (process false b job).1 := by
  rw [process_fst, process_fst]
  by_cases h1 : pyStrip job.data = toL "monitor"
  · rw [processBody_monitor true b job.data h1, processBody_monitor false b job.data h1]
  · by_cases h2 : ' ' ∈ job.data
    · by_cases h3 : pyUpper (cmdOf job.data) = toL "GET"
      · obtain ⟨a, ha⟩ := extractAddr_isSome job.data h2
        rw [processBody_reach true b job.data a h1 h2 h3 ha,
          processBody_reach false b job.data a h1 h2 h3 ha]
        cases b.city a with
        | error e => rfl
        | ok o => cases o <;> rfl
      · rw [processBody_badcmd true b job.data h1 h2 h3,
          processBody_badcmd false b job.data h1 h2 h3]
    · rw [processBody_nospace true b job.data h1 h2,
        processBody_nospace false b job.data h1 h2]

end Geoip
